import Mathlib

/-!
Shallow embedding of `src/PnL Assessment/SRT PnL Stress Analysis v2.py`
(function `srt_stress_analysis`, the quarterly waterfall and discounting
engine), and of the older annual variant in
`src/PnL Assessment/SRT PnL Stress Analysis v1.py`.

Python floats are modelled as exact rationals (ℚ).  The two run-time
faults the Python code can raise are modelled as `Option` failures:
`ZeroDivisionError` on `tranche_exposure / remaining_notional` when the
remaining notional is zero in a pro-rata period, and `IndexError` when
`risk_free_rates` is empty at the per-period rate lookup.
-/

/-- Fixed `maturity = 8` inside `srt_stress_analysis` (v2 line 59). -/
def maturity : ℕ := 8

/-- Fixed `replenishment_period = 3` inside `srt_stress_analysis` (v2 line 60). -/
def replenishment_period : ℕ := 3

/-- Fixed `quarters_per_year = 4` inside `srt_stress_analysis` (v2 line 61). -/
def quarters_per_year : ℕ := 4

/-- The deal-level arguments of `srt_stress_analysis` that are shared by
all scenarios (everything except the per-scenario stress multiplier and
trigger timing). -/
structure DealParams where
  tranche_size : ℚ
  notional_amount : ℚ
  coupon_rate : ℚ
  annual_loss_rate : ℚ
  cln_price : ℚ
  risk_free_rates : List ℚ
  amortisation_rate : ℚ
deriving DecidableEq, Repr, Inhabited

/-- One stress scenario: a stress multiplier paired (by index) with a
trigger timing, as in `for i, stress in enumerate(stress_scenarios)` /
`trigger_time = trigger_timings[i]`. -/
structure Scenario where
  stress : ℚ
  trigger_time : ℕ
deriving DecidableEq, Repr, Inhabited

/-- The Amortisation Type labels of the Python record. -/
inductive Regime where
  | Replenishment
  | ProRata
  | Sequential
deriving DecidableEq, Repr, Inhabited

/-- The per-scenario mutable state of the v2 loop: `remaining_notional`,
`tranche_exposure`, `pnl`, `compounded_cashflows`, `sequential_mode`. -/
structure SimState where
  remaining_notional : ℚ
  tranche_exposure : ℚ
  pnl : ℚ
  compounded_cashflows : ℚ
  sequential_mode : Bool
deriving DecidableEq, Repr, Inhabited

/-- One row appended to `results` by the v2 loop, together with the
period's local variables `principal_payment` and `quarterly_coupon`
(which the Python dict does not store but the loop computes). -/
structure PeriodRecord where
  year : ℕ
  quarter : ℕ
  losses : ℚ
  remaining_notional : ℚ
  tranche_exposure : ℚ
  principal_payment : ℚ
  quarterly_coupon : ℚ
  quarterly_cashflow : ℚ
  regime : Regime
  pnl : ℚ
  discounted_pnl : ℚ
deriving DecidableEq, Repr, Inhabited

/-- State at the start of a scenario (v2 lines 69-75): notional and
exposure at inception, `pnl = -cln_price`, `compounded_cashflows = 0`,
`sequential_mode = False`. -/
def initState (p : DealParams) : SimState :=
  { remaining_notional := p.notional_amount
    tranche_exposure := p.tranche_size
    pnl := -p.cln_price
    compounded_cashflows := 0
    sequential_mode := false }

/-- Quarterly reinvestment rate of a period (v2 line 107):
`risk_free_rates[min(year-1, len(risk_free_rates)-1)] / quarters_per_year`,
which holds the last listed rate flat past the end of the list. -/
def periodRate (p : DealParams) (year : ℕ) : ℚ :=
  p.risk_free_rates.getD (min (year - 1) (p.risk_free_rates.length - 1)) 0 / 4

/-- Tail of one v2 period, common to the three regime branches: coupon on
the branch-updated exposure, cashflow, the every-period loss application
`tranche_exposure -= annual_losses`, pnl update, and the compounding of
cashflows at the period rate.
An empty `risk_free_rates` list is the Python `IndexError` (`none`).
`st` is the state after the regime branch has updated notional/exposure. -/
def finishPeriod (p : DealParams) (year quarter : ℕ) (regime : Regime)
    (principal_payment annual_losses : ℚ) (st : SimState) :
    Option (SimState × PeriodRecord) :=
  if p.risk_free_rates.isEmpty then none
  else
    let quarterly_coupon := st.tranche_exposure * p.coupon_rate / 4
    let quarterly_cashflow := quarterly_coupon + principal_payment
    let tranche_exposure := st.tranche_exposure - annual_losses
    let pnl := st.pnl + quarterly_cashflow
    let compounded := (st.compounded_cashflows + quarterly_cashflow) * (1 + periodRate p year)
    some
      ({ st with
          tranche_exposure := tranche_exposure
          pnl := pnl
          compounded_cashflows := compounded },
        { year := year
          quarter := quarter
          losses := annual_losses
          remaining_notional := st.remaining_notional
          tranche_exposure := tranche_exposure
          principal_payment := principal_payment
          quarterly_coupon := quarterly_coupon
          quarterly_cashflow := quarterly_cashflow
          regime := regime
          pnl := pnl
          discounted_pnl := compounded - p.cln_price })

/-- One quarter of the v2 loop body (lines 77-110).  Replenishment while
`year <= replenishment_period`; otherwise `sequential_mode` latches when
`year == trigger_time`, the sequential branch takes the full loss impact
with no principal, and the pro-rata branch pays the tranche's pro-rata
share — whose division `tranche_exposure / remaining_notional` is the
Python `ZeroDivisionError` (`none`) when `remaining_notional = 0`. -/
def stepQuarter (p : DealParams) (sc : Scenario) (year quarter : ℕ)
    (st : SimState) : Option (SimState × PeriodRecord) :=
  let annual_losses := st.remaining_notional * p.annual_loss_rate * sc.stress / 4
  if year ≤ replenishment_period then
    finishPeriod p year quarter .Replenishment 0 annual_losses st
  else
    -- `sequential_mode = True` is latched when `year == trigger_time`, so the
    -- branch on the updated flag is taken iff `year == trigger_time` or the
    -- flag was already set.
    if year = sc.trigger_time ∨ st.sequential_mode = true then
      finishPeriod p year quarter .Sequential 0 annual_losses
        { st with
            sequential_mode := true
            tranche_exposure := st.tranche_exposure - annual_losses
            remaining_notional := st.remaining_notional * (1 - p.amortisation_rate / 4) }
    else
      if st.remaining_notional = 0 then none
      else
        let principal_payment := (st.tranche_exposure / st.remaining_notional) *
          (st.remaining_notional * p.amortisation_rate / 4)
        finishPeriod p year quarter .ProRata principal_payment annual_losses
          { st with
              tranche_exposure := st.tranche_exposure - principal_payment
              remaining_notional := st.remaining_notional * (1 - p.amortisation_rate / 4) }

/-- The chronological list of (year, quarter) pairs of the nested
`for year in range(1, maturity + 1): for quarter in range(1, 5)` loops. -/
def periodList : List (ℕ × ℕ) :=
  (List.range maturity).flatMap fun y =>
    (List.range quarters_per_year).map fun qu => (y + 1, qu + 1)

/-- Run the v2 loop over a list of periods, threading the state and
collecting the records; any period's fault aborts the whole run, as the
uncaught Python exception would. -/
def runAux (p : DealParams) (sc : Scenario) :
    List (ℕ × ℕ) → SimState → Option (SimState × List PeriodRecord)
  | [], st => some (st, [])
  | (y, qu) :: rest, st =>
    match stepQuarter p sc y qu st with
    | none => none
    | some (st', rec) =>
      match runAux p sc rest st' with
      | none => none
      | some (stF, recs) => some (stF, rec :: recs)

/-- One scenario of `srt_stress_analysis` (v2): all 32 quarterly periods
from the freshly initialised state. -/
def runScenario (p : DealParams) (sc : Scenario) :
    Option (SimState × List PeriodRecord) :=
  runAux p sc periodList (initState p)

/-- The i-th emitted record of a scenario run (defaulting when the run
faulted or the index is out of range). -/
def recordAt (p : DealParams) (sc : Scenario) (i : ℕ) : PeriodRecord :=
  ((runScenario p sc).getD default).2.getD i default

/-- The deal parameters of the v2 example-usage block and of the spec's
end-to-end scenario: tranche 50m, notional 500m, coupon 11%, loss rate
6bp, CLN price 45m, flat 1% rates for 8 years, amortisation 33%. -/
def specParams : DealParams :=
  { tranche_size := 50000000
    notional_amount := 500000000
    coupon_rate := 11/100
    annual_loss_rate := 6/10000
    cln_price := 45000000
    risk_free_rates := List.replicate 8 (1/100)
    amortisation_rate := 33/100 }

/-- First scenario of the v2 example-usage block: stress multiplier 1,
trigger year 4. -/
def specScenario : Scenario := { stress := 1, trigger_time := 4 }

/-!  The v1 script: the same deal, simulated annually.  Its regime label
is recomputed from `year == trigger_time` every year instead of being
latched, so it can revert from Sequential to Pro-rata. -/

/-- Per-scenario mutable state of the v1 loop. -/
structure V1State where
  remaining_notional : ℚ
  tranche_exposure : ℚ
  pnl : ℚ
  discounted_pnl : ℚ
deriving DecidableEq, Repr, Inhabited

/-- One row appended to `results` by the v1 loop. -/
structure V1Record where
  year : ℕ
  losses : ℚ
  remaining_notional : ℚ
  tranche_exposure : ℚ
  regime : Regime
  annual_cashflow : ℚ
  pnl : ℚ
  discounted_pnl : ℚ
deriving DecidableEq, Repr, Inhabited

/-- State at the start of a v1 scenario (v1 lines 69-72). -/
def v1_initState (p : DealParams) : V1State :=
  { remaining_notional := p.notional_amount
    tranche_exposure := p.tranche_size
    pnl := -p.cln_price
    discounted_pnl := -p.cln_price }

/-- One year of the v1 loop body (v1 lines 78-110).  The regime is
recomputed from `year == trigger_time` each year (no latch).  The
discount factor is the product of `1 + risk_free_rates[y-1]` over
`y = 1..year`; a list shorter than `year` is the Python `IndexError`
(`none`).  Rational division is used for `annual_cashflow /
discount_factor` (the factor is nonzero unless a rate equals -1). -/
def v1_stepYear (p : DealParams) (sc : Scenario) (year : ℕ) (st : V1State) :
    Option (V1State × V1Record) :=
  let annual_losses := st.remaining_notional * p.annual_loss_rate * sc.stress
  let regime : Regime :=
    if replenishment_period < year then
      if year = sc.trigger_time then .Sequential else .ProRata
    else .Replenishment
  let remaining_notional :=
    if replenishment_period < year then
      st.remaining_notional * (1 - p.amortisation_rate)
    else st.remaining_notional
  let exposure_after_branch :=
    if replenishment_period < year ∧ year = sc.trigger_time then
      st.tranche_exposure - annual_losses
    else st.tranche_exposure
  let tranche_exposure := exposure_after_branch - annual_losses
  let annual_cashflow := tranche_exposure * p.coupon_rate
  let pnl := st.pnl + annual_cashflow
  if p.risk_free_rates.length < year then none
  else
    let discount_factor :=
      ((List.range year).map (fun y => 1 + p.risk_free_rates.getD y 0)).prod
    let discounted_pnl := st.discounted_pnl + annual_cashflow / discount_factor
    some
      ({ remaining_notional := remaining_notional
         tranche_exposure := tranche_exposure
         pnl := pnl
         discounted_pnl := discounted_pnl },
        { year := year
          losses := annual_losses
          remaining_notional := remaining_notional
          tranche_exposure := tranche_exposure
          regime := regime
          annual_cashflow := annual_cashflow
          pnl := pnl
          discounted_pnl := discounted_pnl })

/-- Run the v1 loop over a list of years. -/
def v1_runAux (p : DealParams) (sc : Scenario) :
    List ℕ → V1State → Option (V1State × List V1Record)
  | [], st => some (st, [])
  | y :: rest, st =>
    match v1_stepYear p sc y st with
    | none => none
    | some (st', rec) =>
      match v1_runAux p sc rest st' with
      | none => none
      | some (stF, recs) => some (stF, rec :: recs)

/-- One scenario of the v1 script: years 1..8 from the fresh state. -/
def v1_run (p : DealParams) (sc : Scenario) :
    Option (V1State × List V1Record) :=
  v1_runAux p sc ((List.range maturity).map (· + 1)) (v1_initState p)

/-- The i-th emitted record of a v1 scenario run. -/
def v1_recordAt (p : DealParams) (sc : Scenario) (i : ℕ) : V1Record :=
  ((v1_run p sc).getD default).2.getD i default

/-- The deal parameters of the v1 example-usage block: loss rate 4bp and
CLN price 35m, otherwise as in v2. -/
def v1_exampleParams : DealParams :=
  { tranche_size := 50000000
    notional_amount := 500000000
    coupon_rate := 11/100
    annual_loss_rate := 4/10000
    cln_price := 35000000
    risk_free_rates := List.replicate 8 (1/100)
    amortisation_rate := 33/100 }

/-- Deal parameters used for the coupon-timing counterexample: losses of
1 per quarter against an initial exposure of 40, so the coupon base and
the recorded post-loss exposure differ. -/
def couponParams : DealParams :=
  { tranche_size := 40
    notional_amount := 400
    coupon_rate := 1/10
    annual_loss_rate := 1/100
    cln_price := 0
    risk_free_rates := [0]
    amortisation_rate := 0 }

/-- Scenario used for the coupon-timing counterexample. -/
def couponScenario : Scenario := { stress := 1, trigger_time := 4 }

/-- Deal parameters with an empty risk-free-rate list (the spec's
empty `risk_free_rates` configuration error). -/
def emptyRatesParams : DealParams :=
  { tranche_size := 40
    notional_amount := 400
    coupon_rate := 1/10
    annual_loss_rate := 1/100
    cln_price := 0
    risk_free_rates := []
    amortisation_rate := 0 }

/-- Small deal parameters used to exercise the absence of configuration
validation (nothing degenerate: positive notional, nonempty rates). -/
def smallParams : DealParams :=
  { tranche_size := 4
    notional_amount := 8
    coupon_rate := 0
    annual_loss_rate := 0
    cln_price := 0
    risk_free_rates := [0]
    amortisation_rate := 0 }

/-- A scenario the spec calls a configuration error: non-positive stress
multiplier and `trigger_year` outside `[1, maturity]`. -/
def invalidScenario : Scenario := { stress := -1, trigger_time := 0 }

/-- Another scenario the spec calls a configuration error: stress 0 and
`trigger_year = 9 > maturity`. -/
def invalidScenario2 : Scenario := { stress := 0, trigger_time := 9 }

/-- A state in a pro-rata period whose remaining notional is zero, the
degenerate division of claim C3. -/
def zeroNotionalState : SimState :=
  { remaining_notional := 0
    tranche_exposure := 10
    pnl := 0
    compounded_cashflows := 0
    sequential_mode := false }

/-- Small deal parameters with a nonzero amortisation rate, used to
exercise the notional trajectory. -/
def amortParams : DealParams :=
  { tranche_size := 4
    notional_amount := 8
    coupon_rate := 0
    annual_loss_rate := 0
    cln_price := 0
    risk_free_rates := [0]
    amortisation_rate := 1 }

/-- A scenario whose trigger year lies inside the replenishment period. -/
def earlyTriggerScenario : Scenario := { stress := 1, trigger_time := 3 }

/-!  Helper lemmas characterising one period. -/

/-- Explicit form of a successful `finishPeriod`. -/
lemma finishPeriod_some {p : DealParams} {year quarter : ℕ} {regime : Regime}
    {pp al : ℚ} {st : SimState} {out : SimState × PeriodRecord}
    (h : finishPeriod p year quarter regime pp al st = some out) :
    p.risk_free_rates.isEmpty = false ∧
    out =
      ({ st with
          tranche_exposure := st.tranche_exposure - al
          pnl := st.pnl + (st.tranche_exposure * p.coupon_rate / 4 + pp)
          compounded_cashflows :=
            (st.compounded_cashflows + (st.tranche_exposure * p.coupon_rate / 4 + pp)) *
              (1 + periodRate p year) },
        { year := year
          quarter := quarter
          losses := al
          remaining_notional := st.remaining_notional
          tranche_exposure := st.tranche_exposure - al
          principal_payment := pp
          quarterly_coupon := st.tranche_exposure * p.coupon_rate / 4
          quarterly_cashflow := st.tranche_exposure * p.coupon_rate / 4 + pp
          regime := regime
          pnl := st.pnl + (st.tranche_exposure * p.coupon_rate / 4 + pp)
          discounted_pnl :=
            (st.compounded_cashflows + (st.tranche_exposure * p.coupon_rate / 4 + pp)) *
              (1 + periodRate p year) - p.cln_price }) := by
  unfold finishPeriod at h
  split at h
  · exact absurd h (by simp)
  · exact ⟨by simp_all, (Option.some.inj h).symm⟩

/-- C2 (amended): in every period the quarterly coupon is computed on the
post-amortisation but pre-loss exposure: it equals
`(recorded tranche_exposure + recorded period losses) * coupon_rate / 4`,
the recorded exposure being the post-loss one. -/
theorem c2_coupon_pre_loss (p : DealParams) (sc : Scenario) (y qu : ℕ)
    (st : SimState) (out : SimState × PeriodRecord)
    (h : stepQuarter p sc y qu st = some out) :
    out.2.quarterly_coupon = (out.2.tranche_exposure + out.2.losses) * p.coupon_rate / 4 := by
  unfold stepQuarter at h
  split at h
  · obtain ⟨-, rfl⟩ := finishPeriod_some h
    simp only
    ring
  · split at h
    · obtain ⟨-, rfl⟩ := finishPeriod_some h
      simp only
      ring
    · split at h
      · exact absurd h (by simp)
      · obtain ⟨-, rfl⟩ := finishPeriod_some h
        simp only
        ring

/-- Structural facts about one successful v2 period: how the state's
notional and latch evolve and what the record's year, quarter and regime
are, in each of the three branches. -/
lemma stepQuarter_some_facts {p : DealParams} {sc : Scenario} {y qu : ℕ}
    {st : SimState} {out : SimState × PeriodRecord}
    (h : stepQuarter p sc y qu st = some out) :
    out.1.remaining_notional =
      (if y ≤ replenishment_period then st.remaining_notional
       else st.remaining_notional * (1 - p.amortisation_rate / 4)) ∧
    out.2.remaining_notional = out.1.remaining_notional ∧
    out.2.year = y ∧
    out.2.quarter = qu ∧
    out.1.sequential_mode =
      (if y ≤ replenishment_period then st.sequential_mode
       else if y = sc.trigger_time ∨ st.sequential_mode = true then true
       else st.sequential_mode) ∧
    out.2.regime =
      (if y ≤ replenishment_period then Regime.Replenishment
       else if y = sc.trigger_time ∨ st.sequential_mode = true then Regime.Sequential
       else Regime.ProRata) := by
  unfold stepQuarter at h
  split at h
  · next hy =>
    obtain ⟨-, rfl⟩ := finishPeriod_some h
    simp [hy]
  · next hy =>
    split at h
    · next hseq =>
      obtain ⟨-, rfl⟩ := finishPeriod_some h
      simp [hy, hseq]
    · next hseq =>
      split at h
      · exact absurd h (by simp)
      · obtain ⟨-, rfl⟩ := finishPeriod_some h
        simp [hy, hseq]

/-- Every successful run emits exactly one record per period. -/
lemma runAux_length (p : DealParams) (sc : Scenario) :
    ∀ (l : List (ℕ × ℕ)) (st : SimState) (out : SimState × List PeriodRecord),
    runAux p sc l st = some out → out.2.length = l.length := by
  intro l
  induction l with
  | nil =>
    intro st out h
    simp only [runAux] at h
    cases h
    rfl
  | cons hd tl ih =>
    obtain ⟨y, qu⟩ := hd
    intro st out h
    simp only [runAux] at h
    cases hstep : stepQuarter p sc y qu st with
    | none => rw [hstep] at h; simp at h
    | some sr =>
      obtain ⟨st', rec⟩ := sr
      rw [hstep] at h
      dsimp only at h
      cases hrest : runAux p sc tl st' with
      | none => rw [hrest] at h; simp at h
      | some restOut =>
        obtain ⟨stF, recs⟩ := restOut
        rw [hrest] at h
        dsimp only at h
        cases h
        simpa using ih st' (stF, recs) hrest

/-- With a trigger year inside the replenishment period, the latch is
never set and no emitted record is Sequential: each record's regime is
Replenishment inside the replenishment period and Pro-rata after it. -/
lemma runAux_no_trigger (p : DealParams) (sc : Scenario)
    (htr : sc.trigger_time ≤ replenishment_period) :
    ∀ (l : List (ℕ × ℕ)) (st : SimState) (out : SimState × List PeriodRecord),
    st.sequential_mode = false → runAux p sc l st = some out →
    ∀ i, i < l.length →
    (out.2.getD i default).regime =
      (if (out.2.getD i default).year ≤ replenishment_period then Regime.Replenishment
       else Regime.ProRata) := by
  intro l
  induction l with
  | nil =>
    intro st out hm h i hi
    simp at hi
  | cons hd tl ih =>
    obtain ⟨y, qu⟩ := hd
    intro st out hm h i hi
    simp only [runAux] at h
    cases hstep : stepQuarter p sc y qu st with
    | none => rw [hstep] at h; simp at h
    | some sr =>
      obtain ⟨st', rec⟩ := sr
      rw [hstep] at h
      dsimp only at h
      cases hrest : runAux p sc tl st' with
      | none => rw [hrest] at h; simp at h
      | some restOut =>
        obtain ⟨stF, recs⟩ := restOut
        rw [hrest] at h
        dsimp only at h
        cases h
        obtain ⟨-, -, hyear, -, hmode, hregime⟩ := stepQuarter_some_facts hstep
        have hcond : ∀ hy : ¬ y ≤ replenishment_period,
            ¬(y = sc.trigger_time ∨ st.sequential_mode = true) := by
          intro hy
          rintro (rfl | hmm)
          · exact hy htr
          · rw [hm] at hmm; cases hmm
        have hmode' : st'.sequential_mode = false := by
          rw [hmode]
          by_cases hy : y ≤ replenishment_period
          · rw [if_pos hy]; exact hm
          · rw [if_neg hy, if_neg (hcond hy)]; exact hm
        cases i with
        | zero =>
          have hy2 : rec.year = y := hyear
          simp only [List.getD_cons_zero]
          rw [hregime]
          simp only [hy2]
          by_cases hy : y ≤ replenishment_period
          · rw [if_pos hy, if_pos hy]
          · rw [if_neg hy, if_neg hy, if_neg (hcond hy)]
        | succ i =>
          simp only [List.getD_cons_succ]
          exact ih st' (stF, recs) hmode' hrest i (by simpa using hi)

/-- The remaining notional recorded in period `i` (0-based) is the initial
notional times `(1 - amortisation_rate/4)` to the number of
post-replenishment periods among the first `i+1`: losses never touch it,
and the factor is the same in the pro-rata and sequential branches. -/
lemma runAux_notional (p : DealParams) (sc : Scenario) :
    ∀ (l : List (ℕ × ℕ)) (st : SimState) (out : SimState × List PeriodRecord),
    runAux p sc l st = some out →
    ∀ i, i < l.length →
    (out.2.getD i default).remaining_notional =
      st.remaining_notional * (1 - p.amortisation_rate / 4) ^
        ((l.take (i + 1)).countP fun yq => decide (replenishment_period < yq.1)) := by
  intro l
  induction l with
  | nil =>
    intro st out h i hi
    simp at hi
  | cons hd tl ih =>
    obtain ⟨y, qu⟩ := hd
    intro st out h i hi
    simp only [runAux] at h
    cases hstep : stepQuarter p sc y qu st with
    | none => rw [hstep] at h; simp at h
    | some sr =>
      obtain ⟨st', rec⟩ := sr
      rw [hstep] at h
      dsimp only at h
      cases hrest : runAux p sc tl st' with
      | none => rw [hrest] at h; simp at h
      | some restOut =>
        obtain ⟨stF, recs⟩ := restOut
        rw [hrest] at h
        dsimp only at h
        cases h
        obtain ⟨hnot, hrecnot, -, -, -, -⟩ := stepQuarter_some_facts hstep
        cases i with
        | zero =>
          simp only [List.getD_cons_zero, List.take_succ_cons, List.take_zero,
            List.countP_cons, List.countP_nil]
          rw [hrecnot, hnot]
          by_cases hy : y ≤ replenishment_period
          · rw [if_pos hy, decide_eq_false (Nat.not_lt.mpr hy)]
            simp
          · rw [if_neg hy, decide_eq_true (Nat.not_le.mp hy)]
            simp
        | succ i =>
          simp only [List.getD_cons_succ, List.take_succ_cons, List.countP_cons]
          rw [ih st' (stF, recs) hrest i (by simpa using hi), hnot]
          by_cases hy : y ≤ replenishment_period
          · rw [if_pos hy, decide_eq_false (Nat.not_lt.mpr hy)]
            simp
          · rw [if_neg hy, decide_eq_true (Nat.not_le.mp hy)]
            simp only [if_true, pow_succ]
            ring

/-- A successful scenario run emits exactly 32 records. -/
lemma runScenario_length {p : DealParams} {sc : Scenario}
    {out : SimState × List PeriodRecord} (h : runScenario p sc = some out) :
    out.2.length = 32 := by
  have := runAux_length p sc periodList (initState p) out h
  simpa using this

/-- Unfold `recordAt` over a successful run. -/
lemma recordAt_eq {p : DealParams} {sc : Scenario}
    {out : SimState × List PeriodRecord} (h : runScenario p sc = some out)
    (i : ℕ) : recordAt p sc i = out.2.getD i default := by
  unfold recordAt
  rw [h]
  rfl

/-- One-step unfolding of `runAux` on a cons cell. -/
lemma runAux_cons (p : DealParams) (sc : Scenario) (y qu : ℕ)
    (rest : List (ℕ × ℕ)) (st : SimState) :
    runAux p sc ((y, qu) :: rest) st =
      match stepQuarter p sc y qu st with
      | none => none
      | some (st', rec) =>
        match runAux p sc rest st' with
        | none => none
        | some (stF, recs) => some (stF, rec :: recs) := rfl

/-- The first record of a successful run is the record of the first
period's step from the initial state. -/
lemma runScenario_record_zero {p : DealParams} {sc : Scenario}
    {out : SimState × List PeriodRecord} (h : runScenario p sc = some out) :
    out.2.getD 0 default = ((stepQuarter p sc 1 1 (initState p)).getD default).2 := by
  unfold runScenario at h
  have hpl : periodList = (1, 1) :: periodList.tail := by rfl
  rw [hpl, runAux_cons] at h
  cases hstep : stepQuarter p sc 1 1 (initState p) with
  | none => rw [hstep] at h; simp at h
  | some sr =>
    obtain ⟨st', rec⟩ := sr
    rw [hstep] at h
    dsimp only at h
    cases hrest : runAux p sc periodList.tail st' with
    | none => rw [hrest] at h; simp at h
    | some restOut =>
      obtain ⟨stF, recs⟩ := restOut
      rw [hrest] at h
      dsimp only at h
      cases h
      rfl

/-- Among the first `i+1` periods (for `i < 32`) there are exactly
`i+1-12` post-replenishment ones: years 1-3 are quarters 0-11. -/
lemma periodList_countP :
    ∀ i, i < 32 →
    ((periodList.take (i + 1)).countP fun yq => decide (replenishment_period < yq.1)) =
      i + 1 - 12 := by
  decide

/-!  Claim theorems. -/

/-- C3 (amended): in a pro-rata period (post-replenishment, latch unset,
year not the trigger year) with `remaining_notional = 0`, the pro-rata
share computation raises the Python `ZeroDivisionError` and the period
produces no output at all, rather than yielding `principal_payment = 0`. -/
theorem c3_zero_notional_faults (p : DealParams) (sc : Scenario) (y qu : ℕ)
    (st : SimState) (hy : replenishment_period < y) (ht : y ≠ sc.trigger_time)
    (hm : st.sequential_mode = false) (hn : st.remaining_notional = 0) :
    stepQuarter p sc y qu st = none := by
  have hc : ¬(y = sc.trigger_time ∨ st.sequential_mode = true) := by
    rintro (rfl | hmm)
    · exact ht rfl
    · rw [hm] at hmm; cases hmm
  simp only [stepQuarter]
  rw [if_neg (Nat.not_le.mpr hy), if_neg hc, if_pos hn]

/-- C3 counterexample: a concrete pro-rata period with zero remaining
notional (year 4, trigger year 9, latch unset): the step faults (`none`);
it does not produce a record with `principal_payment = 0`. -/
theorem c3_counterexample :
    zeroNotionalState.remaining_notional = 0 ∧
    zeroNotionalState.sequential_mode = false ∧
    stepQuarter couponParams invalidScenario2 4 1 zeroNotionalState = none := by
  with_unfolding_all decide

/-- C3 witness: the amended theorem applied at year 5, quarter 2. -/
theorem c3_witness :
    stepQuarter couponParams invalidScenario2 5 2 zeroNotionalState = none :=
  c3_zero_notional_faults couponParams invalidScenario2 5 2 zeroNotionalState
    (by decide) (by decide) (by with_unfolding_all decide)
    (by with_unfolding_all decide)

/-- C4: in every sequential period (post-replenishment with the latch set
or the trigger year reached) the principal payment is zero, the remaining
notional is multiplied by `1 - amortisation_rate/4`, and the period's
losses are subtracted from the tranche exposure twice, so the exposure
falls by exactly twice the period losses. -/
theorem c4_sequential_period (p : DealParams) (sc : Scenario) (y qu : ℕ)
    (st : SimState) (out : SimState × PeriodRecord)
    (hy : replenishment_period < y)
    (hseq : y = sc.trigger_time ∨ st.sequential_mode = true)
    (h : stepQuarter p sc y qu st = some out) :
    out.2.principal_payment = 0 ∧
    out.2.regime = Regime.Sequential ∧
    out.1.remaining_notional = st.remaining_notional * (1 - p.amortisation_rate / 4) ∧
    out.2.losses = st.remaining_notional * p.annual_loss_rate * sc.stress / 4 ∧
    out.1.tranche_exposure = st.tranche_exposure - 2 * out.2.losses ∧
    out.2.tranche_exposure = out.1.tranche_exposure := by
  simp only [stepQuarter] at h
  rw [if_neg (Nat.not_le.mpr hy), if_pos hseq] at h
  obtain ⟨-, rfl⟩ := finishPeriod_some h
  refine ⟨rfl, rfl, rfl, rfl, ?_, rfl⟩
  simp only
  ring

/-- C4 witness: the theorem applied at the trigger year of the coupon
example (year 4, quarter 1, from the initial state). -/
theorem c4_witness :
    ((stepQuarter couponParams couponScenario 4 1 (initState couponParams)).getD
        default).2.principal_payment = 0 :=
  (c4_sequential_period couponParams couponScenario 4 1 (initState couponParams)
    ((stepQuarter couponParams couponScenario 4 1 (initState couponParams)).getD default)
    (by decide) (Or.inl rfl) (by with_unfolding_all decide)).1

/-- C5: the discounting accumulator starts at 0, each period multiplies
the balance plus the period cashflow by one plus the quarterly rate
`risk_free_rates[min(year-1, len(risk_free_rates)-1)] / 4` (last rate
held flat), and the recorded risk-adjusted PnL is the updated balance
minus the CLN price. -/
theorem c5_discounting (p : DealParams) (sc : Scenario) (y qu : ℕ)
    (st : SimState) (out : SimState × PeriodRecord)
    (h : stepQuarter p sc y qu st = some out) :
    (initState p).compounded_cashflows = 0 ∧
    out.1.compounded_cashflows =
      (st.compounded_cashflows + out.2.quarterly_cashflow) *
        (1 + p.risk_free_rates.getD
            (min (y - 1) (p.risk_free_rates.length - 1)) 0 / 4) ∧
    out.2.discounted_pnl = out.1.compounded_cashflows - p.cln_price := by
  unfold stepQuarter at h
  split at h
  · obtain ⟨-, rfl⟩ := finishPeriod_some h
    exact ⟨rfl, by simp [periodRate], rfl⟩
  · split at h
    · obtain ⟨-, rfl⟩ := finishPeriod_some h
      exact ⟨rfl, by simp [periodRate], rfl⟩
    · split at h
      · exact absurd h (by simp)
      · obtain ⟨-, rfl⟩ := finishPeriod_some h
        exact ⟨rfl, by simp [periodRate], rfl⟩

/-- C5 witness: the theorem applied at period (1,1) of the coupon
example. -/
theorem c5_witness :
    ((stepQuarter couponParams couponScenario 1 1 (initState couponParams)).getD
        default).2.discounted_pnl =
      ((stepQuarter couponParams couponScenario 1 1 (initState couponParams)).getD
        default).1.compounded_cashflows - couponParams.cln_price :=
  (c5_discounting couponParams couponScenario 1 1 (initState couponParams)
    ((stepQuarter couponParams couponScenario 1 1 (initState couponParams)).getD default)
    (by with_unfolding_all decide)).2.2

/-- Rewriting of the first emitted record of a completing run as the
first period's step output. -/
lemma recordAt_zero_eq_step {p : DealParams} {sc : Scenario}
    (h : (runScenario p sc).isSome = true) :
    recordAt p sc 0 = ((stepQuarter p sc 1 1 (initState p)).getD default).2 := by
  obtain ⟨out, hout⟩ := Option.isSome_iff_exists.mp h
  rw [recordAt_eq hout 0, runScenario_record_zero hout]

/-- C2 counterexample: in the first period of the coupon example the
recorded quarterly cashflow (equal to the coupon there) is 1, while the
recorded post-loss tranche exposure times `coupon_rate / 4` is 39/40: the
coupon is not computed on the post-loss exposure. -/
theorem c2_counterexample :
    (runScenario couponParams couponScenario).isSome = true ∧
    ¬ ((recordAt couponParams couponScenario 0).quarterly_coupon =
        (recordAt couponParams couponScenario 0).tranche_exposure *
          couponParams.coupon_rate / 4) := by
  have hs : (runScenario couponParams couponScenario).isSome = true := by
    with_unfolding_all decide
  refine ⟨hs, ?_⟩
  rw [recordAt_zero_eq_step hs]
  with_unfolding_all decide

/-- C2 witness: the amended theorem applied at period (1,1) of the coupon
example. -/
theorem c2_witness :
    ((stepQuarter couponParams couponScenario 1 1 (initState couponParams)).getD
        default).2.quarterly_coupon =
      (((stepQuarter couponParams couponScenario 1 1 (initState couponParams)).getD
          default).2.tranche_exposure +
        ((stepQuarter couponParams couponScenario 1 1 (initState couponParams)).getD
          default).2.losses) * couponParams.coupon_rate / 4 :=
  c2_coupon_pre_loss couponParams couponScenario 1 1 (initState couponParams)
    ((stepQuarter couponParams couponScenario 1 1 (initState couponParams)).getD default)
    (by with_unfolding_all decide)

/-- Shape of a replenishment period's record: zero principal, regime
Replenishment, the period's year and quarter. -/
lemma stepQuarter_repl {p : DealParams} {sc : Scenario} {y qu : ℕ}
    {st : SimState} {out : SimState × PeriodRecord}
    (hy : y ≤ replenishment_period) (h : stepQuarter p sc y qu st = some out) :
    out.2.principal_payment = 0 ∧ out.2.regime = Regime.Replenishment ∧
    out.2.year = y ∧ out.2.quarter = qu := by
  simp only [stepQuarter] at h
  rw [if_pos hy] at h
  obtain ⟨-, rfl⟩ := finishPeriod_some h
  exact ⟨rfl, rfl, rfl, rfl⟩

/-- A completing run's first period step succeeded and produced the first
emitted record. -/
lemma runScenario_first_step {p : DealParams} {sc : Scenario}
    {out : SimState × List PeriodRecord} (h : runScenario p sc = some out) :
    ∃ out1, stepQuarter p sc 1 1 (initState p) = some out1 ∧
      out.2.getD 0 default = out1.2 := by
  unfold runScenario at h
  have hpl : periodList = (1, 1) :: periodList.tail := by rfl
  rw [hpl, runAux_cons] at h
  cases hstep : stepQuarter p sc 1 1 (initState p) with
  | none => rw [hstep] at h; simp at h
  | some sr =>
    obtain ⟨st', rec⟩ := sr
    rw [hstep] at h
    dsimp only at h
    cases hrest : runAux p sc periodList.tail st' with
    | none => rw [hrest] at h; simp at h
    | some restOut =>
      obtain ⟨stF, recs⟩ := restOut
      rw [hrest] at h
      dsimp only at h
      cases h
      exact ⟨(st', rec), rfl, rfl⟩

set_option maxRecDepth 100000 in
/-- C6: every period's losses equal the period-start remaining notional
times `annual_loss_rate × stress / 4`; and in the spec's end-to-end
scenario (500m notional, 6bp loss rate, stress 1, trigger year 4) the
run completes and its first record (year 1, quarter 1) shows regime
Replenishment, losses 75000 and zero principal. -/
theorem c6_losses_and_first_period :
    (∀ (p : DealParams) (sc : Scenario) (y qu : ℕ) (st : SimState)
        (out : SimState × PeriodRecord),
        stepQuarter p sc y qu st = some out →
        out.2.losses = st.remaining_notional * p.annual_loss_rate * sc.stress / 4) ∧
    (runScenario specParams specScenario).isSome = true ∧
    (recordAt specParams specScenario 0).year = 1 ∧
    (recordAt specParams specScenario 0).quarter = 1 ∧
    (recordAt specParams specScenario 0).regime = Regime.Replenishment ∧
    (recordAt specParams specScenario 0).losses = 75000 ∧
    (recordAt specParams specScenario 0).principal_payment = 0 := by
  have hgen : ∀ (p : DealParams) (sc : Scenario) (y qu : ℕ) (st : SimState)
      (out : SimState × PeriodRecord),
      stepQuarter p sc y qu st = some out →
      out.2.losses = st.remaining_notional * p.annual_loss_rate * sc.stress / 4 := by
    intro p sc y qu st out h
    unfold stepQuarter at h
    split at h
    · obtain ⟨-, rfl⟩ := finishPeriod_some h
      rfl
    · split at h
      · obtain ⟨-, rfl⟩ := finishPeriod_some h
        rfl
      · split at h
        · exact absurd h (by simp)
        · obtain ⟨-, rfl⟩ := finishPeriod_some h
          rfl
  have hs : (runScenario specParams specScenario).isSome = true := by
    with_unfolding_all decide
  obtain ⟨out, hout⟩ := Option.isSome_iff_exists.mp hs
  obtain ⟨out1, hstep, hrec0⟩ := runScenario_first_step hout
  have hra : recordAt specParams specScenario 0 = out1.2 := by
    rw [recordAt_eq hout 0, hrec0]
  obtain ⟨hpp, hreg, hyr, hqu⟩ := stepQuarter_repl (by decide) hstep
  have hloss := hgen _ _ _ _ _ _ hstep
  refine ⟨hgen, hs, ?_, ?_, ?_, ?_, ?_⟩ <;> rw [hra]
  · exact hyr
  · exact hqu
  · exact hreg
  · rw [hloss]
    norm_num [initState, specParams, specScenario]
  · exact hpp

/-- C6 witness: the general losses formula applied at period (2,2) of the
coupon example. -/
theorem c6_witness :
    ((stepQuarter couponParams couponScenario 2 2 (initState couponParams)).getD
        default).2.losses =
      (initState couponParams).remaining_notional * couponParams.annual_loss_rate *
        couponScenario.stress / 4 :=
  c6_losses_and_first_period.1 couponParams couponScenario 2 2 (initState couponParams)
    ((stepQuarter couponParams couponScenario 2 2 (initState couponParams)).getD default)
    (by with_unfolding_all decide)

/-- C7: in any period started from a non-degenerate state (non-negative
notional and exposure) with non-negative period losses and a non-negative
amortisation rate, the remaining notional and tranche exposure do not
increase, in the carried state and in the emitted record alike. -/
theorem c7_monotone (p : DealParams) (sc : Scenario) (y qu : ℕ)
    (st : SimState) (out : SimState × PeriodRecord)
    (hn : 0 ≤ st.remaining_notional) (he : 0 ≤ st.tranche_exposure)
    (hloss : 0 ≤ st.remaining_notional * p.annual_loss_rate * sc.stress / 4)
    (ha : 0 ≤ p.amortisation_rate)
    (h : stepQuarter p sc y qu st = some out) :
    out.1.remaining_notional ≤ st.remaining_notional ∧
    out.1.tranche_exposure ≤ st.tranche_exposure ∧
    out.2.remaining_notional ≤ st.remaining_notional ∧
    out.2.tranche_exposure ≤ st.tranche_exposure := by
  unfold stepQuarter at h
  split at h
  · obtain ⟨-, rfl⟩ := finishPeriod_some h
    refine ⟨le_refl _, ?_, le_refl _, ?_⟩ <;>
    · simp only
      nlinarith [hloss]
  · split at h
    · obtain ⟨-, rfl⟩ := finishPeriod_some h
      refine ⟨?_, ?_, ?_, ?_⟩ <;>
      · simp only
        nlinarith [hloss, mul_nonneg hn ha]
    · split at h
      · exact absurd h (by simp)
      · next hne =>
        obtain ⟨-, rfl⟩ := finishPeriod_some h
        have hpp : 0 ≤ (st.tranche_exposure / st.remaining_notional) *
            (st.remaining_notional * p.amortisation_rate / 4) := by
          apply mul_nonneg
          · exact div_nonneg he hn
          · exact div_nonneg (mul_nonneg hn ha) (by norm_num)
        refine ⟨?_, ?_, ?_, ?_⟩ <;>
        · simp only
          nlinarith [hloss, mul_nonneg hn ha, hpp]

/-- C7 witness: the theorem applied at period (1,1) of the coupon
example. -/
theorem c7_witness :
    ((stepQuarter couponParams couponScenario 1 1 (initState couponParams)).getD
        default).1.remaining_notional ≤ (initState couponParams).remaining_notional :=
  (c7_monotone couponParams couponScenario 1 1 (initState couponParams)
    ((stepQuarter couponParams couponScenario 1 1 (initState couponParams)).getD default)
    (by with_unfolding_all decide) (by with_unfolding_all decide)
    (by with_unfolding_all decide) (by with_unfolding_all decide)
    (by with_unfolding_all decide)).1

/-- C8 (amended): the engine performs no configuration validation.
Maturity, replenishment period and periods per year are hardcoded (8, 3,
4), a non-positive stress multiplier or an out-of-range trigger year is
silently accepted and the full 32-period table is produced; only an
empty risk-free-rate list makes the run fail, and it does so as an
uncaught fault at the first period's rate lookup, not as a synchronous
configuration message. -/
theorem c8_no_validation :
    (∀ (p : DealParams) (sc : Scenario), p.risk_free_rates = [] →
        runScenario p sc = none) ∧
    ((runScenario smallParams invalidScenario2).isSome = true ∧
      ((runScenario smallParams invalidScenario2).getD default).2.length = 32) := by
  refine ⟨?_, ?_, ?_⟩
  · intro p sc hrates
    unfold runScenario
    rw [show periodList = (1, 1) :: periodList.tail from rfl, runAux_cons]
    have hstep : stepQuarter p sc 1 1 (initState p) = none := by
      simp only [stepQuarter]
      rw [if_pos (by decide : (1 : ℕ) ≤ replenishment_period)]
      unfold finishPeriod
      rw [if_pos (by simp [hrates])]
    rw [hstep]
  · with_unfolding_all decide
  · with_unfolding_all decide

/-- C8 counterexample: a scenario with non-positive stress multiplier
(-1) and trigger year 0 (outside [1, maturity]) is processed without any
error report: the run completes and yields all 32 period records. -/
theorem c8_counterexample :
    invalidScenario.stress ≤ 0 ∧
    invalidScenario.trigger_time = 0 ∧
    (runScenario smallParams invalidScenario).isSome = true ∧
    ((runScenario smallParams invalidScenario).getD default).2.length = 32 := by
  refine ⟨?_, rfl, ?_, ?_⟩ <;> with_unfolding_all decide

/-- C8 witness: the amended theorem applied to a parameter set with an
empty rate list, and its validation-free branch at stress 0 / trigger 9. -/
theorem c8_witness :
    runScenario emptyRatesParams couponScenario = none ∧
    (runScenario smallParams invalidScenario2).isSome = true :=
  ⟨c8_no_validation.1 emptyRatesParams couponScenario rfl, c8_no_validation.2.1⟩

/-- C9: for every deal and every scenario whose run completes, the
remaining notional recorded in period `i` (0-based global quarter) equals
`notional_amount * (1 - amortisation_rate/4) ^ (i + 1 - 12)` (truncated
subtraction): it is untouched by losses, constant through the 12
replenishment quarters, and follows the same amortisation-only
trajectory in both regimes, for every stress multiplier and trigger. -/
theorem c9_notional_trajectory (p : DealParams) (sc : Scenario)
    (h : (runScenario p sc).isSome = true) (i : ℕ) (hi : i < 32) :
    (recordAt p sc i).remaining_notional =
      p.notional_amount * (1 - p.amortisation_rate / 4) ^ (i + 1 - 12) := by
  obtain ⟨out, hout⟩ := Option.isSome_iff_exists.mp h
  rw [recordAt_eq hout i]
  have hlen : periodList.length = 32 := rfl
  have hmain := runAux_notional p sc periodList (initState p) out hout i
    (by rw [hlen]; exact hi)
  rw [hmain, periodList_countP i hi]
  rfl

/-- C9 witness: the theorem applied to the small amortising deal at
period 13 (year 4, quarter 2), one quarter past replenishment end plus
one. -/
theorem c9_witness :
    (runScenario amortParams invalidScenario2).isSome = true ∧
    (recordAt amortParams invalidScenario2 13).remaining_notional =
      amortParams.notional_amount *
        (1 - amortParams.amortisation_rate / 4) ^ (13 + 1 - 12) := by
  have hs : (runScenario amortParams invalidScenario2).isSome = true := by
    with_unfolding_all decide
  exact ⟨hs, c9_notional_trajectory amortParams invalidScenario2 hs 13 (by decide)⟩

/-- C10: when the trigger year is at most the replenishment period, the
`year == trigger_time` test (evaluated only after replenishment) never
fires: no record is Sequential, and every record is Replenishment inside
the replenishment period and Pro-rata after it. -/
theorem c10_early_trigger_ignored (p : DealParams) (sc : Scenario)
    (htr : sc.trigger_time ≤ replenishment_period)
    (h : (runScenario p sc).isSome = true) (i : ℕ) (hi : i < 32) :
    (recordAt p sc i).regime ≠ Regime.Sequential ∧
    (recordAt p sc i).regime =
      (if (recordAt p sc i).year ≤ replenishment_period then Regime.Replenishment
       else Regime.ProRata) := by
  obtain ⟨out, hout⟩ := Option.isSome_iff_exists.mp h
  rw [recordAt_eq hout i]
  have hlen : periodList.length = 32 := rfl
  have hreg := runAux_no_trigger p sc htr periodList (initState p) out rfl hout i
    (by rw [hlen]; exact hi)
  refine ⟨?_, hreg⟩
  rw [hreg]
  split
  · exact fun hcontra => Regime.noConfusion hcontra
  · exact fun hcontra => Regime.noConfusion hcontra

/-- C10 witness: the theorem applied to the small deal with trigger year
3 (inside replenishment) at period 12 (year 4, quarter 1). -/
theorem c10_witness :
    (runScenario smallParams earlyTriggerScenario).isSome = true ∧
    (recordAt smallParams earlyTriggerScenario 12).regime ≠ Regime.Sequential := by
  have hs : (runScenario smallParams earlyTriggerScenario).isSome = true := by
    with_unfolding_all decide
  exact ⟨hs,
    (c10_early_trigger_ignored smallParams earlyTriggerScenario (by decide) hs 12
      (by decide)).1⟩

set_option maxRecDepth 40000 in
/-- C1 (v1 behaviour at the failing input): in the v1 script, with the
v1 example deal and the first scenario (stress 1, trigger year 4), the
year-4 record is Sequential but the following year-5 record is back to
Pro-rata: the regime is recomputed from `year == trigger_time` each year
instead of being latched, so Sequential does not persist.  (The v2
engine latches `sequential_mode`, and v1's own header lists this
reversion as a bug to fix.) -/
theorem c1_v1_sequential_reverts :
    (v1_run v1_exampleParams specScenario).isSome = true ∧
    (v1_recordAt v1_exampleParams specScenario 3).year = 4 ∧
    (v1_recordAt v1_exampleParams specScenario 3).regime = Regime.Sequential ∧
    (v1_recordAt v1_exampleParams specScenario 4).year = 5 ∧
    (v1_recordAt v1_exampleParams specScenario 4).regime = Regime.ProRata := by
  refine ⟨?_, ?_, ?_, ?_, ?_⟩ <;> with_unfolding_all decide
